import Mathlib

/-!
Verification of the conversational core of `open-chat-studio`:
the channel message-handling state machine (`apps/chat/channels.py`) and the
LLM runnable pipeline (`apps/service_providers/llm_service/runnables.py`).

Each definition below is a shallow embedding of the corresponding Python
function or constant; names follow the source where Lean's lexer allows it.
Machine-level concerns that the claims do not touch (network transports,
Django ORM plumbing, voice synthesis) are represented as effect markers or
oracle parameters.
-/

namespace OCS

/-- `ChatMessageType` values used in `apps/chat/channels.py`
(HUMAN / AI / SYSTEM entries of a chat history). -/
inductive ChatMessageType
  | HUMAN
  | AI
  | SYSTEM
deriving DecidableEq, Repr

/-- Session status values driven by the consent state machine
(`apps/chat/channels.py` lines 241-312). The model only needs the four
statuses the orchestrator reads and writes. -/
inductive SessionStatus
  | SETUP
  | PENDING
  | PENDING_PRE_SURVEY
  | ACTIVE
deriving DecidableEq, Repr

/-- Channel platforms dispatched in `ChannelBase.from_experiment_session`
(`apps/chat/channels.py` lines 173-188). -/
inductive ChannelPlatform
  | WEB
  | TELEGRAM
  | WHATSAPP
  | FACEBOOK
  | API
  | SLACK
deriving DecidableEq, Repr

/-- `USER_CONSENT_TEXT = "1"` (`apps/chat/channels.py` line 33). -/
def USER_CONSENT_TEXT : String := "1"

/-- Modelled from the spec: `ExperimentChannel.RESET_COMMAND` lives in
`apps/channels/models.py`, which is not part of the sources; the spec calls it
"a literal sentinel string recognized as a user message". The claims depend
only on it being a fixed literal, not on its value. -/
def RESET_COMMAND : String := "/reset"

/-- Python `str.strip()` with no argument: drop leading and trailing
whitespace characters. (Python strips any Unicode whitespace; the messages
relevant here are ASCII, for which `Char.isWhitespace` agrees.) -/
def stripList (l : List Char) : List Char :=
  ((l.dropWhile Char.isWhitespace).reverse.dropWhile Char.isWhitespace).reverse

/-- Python `str.strip()` lifted to `String`. -/
def pyStrip (s : String) : String := ⟨stripList s.data⟩

/-- `ChannelBase._user_gave_consent` (`apps/chat/channels.py` lines 311-312):
`self.user_query.strip() == USER_CONSENT_TEXT`. -/
def user_gave_consent (query : String) : Bool :=
  pyStrip query == USER_CONSENT_TEXT

/-- The slice of the `Experiment` configuration read by the orchestrator and
the runnable factory. `pre_survey` carries the survey's `confirmation_text`
when a pre-survey is configured (`None` otherwise); `seed_message` and the
consent texts are plain text fields whose Python truthiness is emptiness. -/
structure Experiment where
  conversational_consent_enabled : Bool
  /-- `consent_form.consent_text` -/
  consent_text : String
  /-- `consent_form.confirmation_text` -/
  confirmation_text : String
  /-- `pre_survey` foreign key; the payload is the survey's `confirmation_text`. -/
  pre_survey : Option String
  /-- Modelled from the spec: `ExperimentSession.get_pre_survey_link()` is in
  `apps/experiments/models.py`, which is not part of the sources; the spec only
  says the survey confirmation text is formatted with "the survey link". -/
  pre_survey_link : String
  seed_message : String
  /-- whether the experiment references a hosted assistant (`experiment.assistant`) -/
  assistant : Bool
  /-- whether an LLM model is configured (`experiment.llm` truthiness) -/
  llm : Bool
  /-- whether an LLM provider is configured (`experiment.llm_provider` truthiness) -/
  llm_provider : Bool
  tools_enabled : Bool
  /-- `experiment.source_material.material` when source material is linked -/
  source_material : Option String
  prompt_text : String
deriving DecidableEq, Repr

/-- Static-trigger kinds enqueued by the orchestrator
(`apps/events` `StaticTriggerType` members used in `channels.py`). -/
inductive TriggerType
  | NEW_HUMAN_MESSAGE
  | PARTICIPANT_JOINED_EXPERIMENT
  | CONVERSATION_START
deriving DecidableEq, Repr

/-- Externally visible actions of the orchestrator. `botGenerate` records a
call of `_generate_response_for_user` (LLM pipeline invoked with
`save_input_to_history=False`, e.g. for the seed message); `botForwardQuery`
records `_get_llm_response` forwarding the user's query to the pipeline. -/
inductive Effect
  | sendText (text : String)
  | botGenerate (prompt : String)
  | botForwardQuery (query : String)
  | enqueueTrigger (t : TriggerType)
deriving DecidableEq, Repr

/-- Effects that would forward the conversation to the LLM pipeline with the
user's query or signal a new human message to downstream collaborators; the
gating paths must produce neither. -/
def effectIsForwardOrTrigger : Effect → Bool
  | Effect.botForwardQuery _ => true
  | Effect.enqueueTrigger _ => true
  | _ => false

/-- Output record of a pipeline invocation (`ChainOutput`,
`apps/service_providers/llm_service/runnables.py` lines 60-67). -/
structure ChainOutput where
  output : String
  prompt_tokens : Nat
  completion_tokens : Nat
deriving DecidableEq, Repr

/-- The outcome of handing a prompt to `TopicBot.process_input`: either a
reply string, or a `GenerationCancelled` exception carrying the partial
`ChainOutput` (raised by `ExperimentRunnable.invoke`). The orchestrator model
is parametrised by this oracle. -/
abbrev BotOracle := String → Except ChainOutput String

/-- One persisted `ExperimentSession` as far as the orchestrator reads and
writes it: gating status, `ended_at`, and its chat history (message type and
content of each `ChatMessage`). -/
structure SessionRec where
  status : SessionStatus
  ended_at : Option Nat
  history : List (ChatMessageType × String)
deriving DecidableEq, Repr

/-- Modelled from the spec: `ExperimentSession.user_already_engaged` is in
`apps/experiments/models.py`, which is not part of the sources. The spec's
design note says to preserve it literally as "has at least one non-system
history entry". -/
def user_already_engaged (s : SessionRec) : Bool :=
  s.history.any (fun e => e.1 ≠ ChatMessageType.SYSTEM)

/-- Modelled from the spec: a newly created `ExperimentSession` for a channel
chat starts with no history, a null `ended_at`, and status SETUP ("Session
started -> status will be SETUP"); the Django default lives outside the
sources. -/
def newSessionRec : SessionRec :=
  { status := SessionStatus.SETUP, ended_at := none, history := [] }

/-- `ChannelBase._ensure_sessions_exists` together with `_reset_session` and
`_create_new_experiment_session` (`apps/chat/channels.py` lines 398-455),
restricted to one (experiment, participant) pair. The store lists that
participant's sessions most recent first (the code orders by `-created_at`
and takes the first). Returns the current session, the remaining store, and
the triggers enqueued. `_reset_session` ends the current session
(modelled from the spec: `ExperimentSession.end()` sets `ended_at` to the
current time) and creates a new one. -/
def ensure_sessions_exists (store : List SessionRec) (isReset : Bool) (now : Nat) :
    SessionRec × List SessionRec × List Effect :=
  match store with
  | [] =>
      (newSessionRec, [],
        [Effect.enqueueTrigger TriggerType.CONVERSATION_START,
         Effect.enqueueTrigger TriggerType.PARTICIPANT_JOINED_EXPERIMENT])
  | cur :: rest =>
      if isReset && user_already_engaged cur then
        (newSessionRec, { cur with ended_at := some now } :: rest,
          [Effect.enqueueTrigger TriggerType.CONVERSATION_START])
      else
        (cur, rest, [])

/-- `ChannelBase._ask_user_for_consent` message
(`apps/chat/channels.py` lines 286-291). -/
def consentMessage (e : Experiment) : String :=
  e.consent_text ++ "\n\n" ++ e.confirmation_text

/-- `ChannelBase._ask_user_to_take_survey` message
(`apps/chat/channels.py` lines 293-298): the survey confirmation text with
`survey_link` formatted in. -/
def surveyMessage (e : Experiment) : String :=
  (e.pre_survey.getD "").replace "{survey_link}" e.pre_survey_link

/-- `ChannelBase.start_conversation` (`apps/chat/channels.py` lines 274-279):
set status ACTIVE, then, if a seed message is configured, generate a bot
response for it and send it. Returns the status reached, the history, the
effects, and whether the bot raised `GenerationCancelled`. -/
def start_conversation (e : Experiment) (bot : BotOracle)
    (hist : List (ChatMessageType × String)) :
    SessionStatus × List (ChatMessageType × String) × List Effect ×
      Except ChainOutput Unit :=
  if e.seed_message ≠ "" then
    match bot e.seed_message with
    | Except.error o =>
        (SessionStatus.ACTIVE, hist, [Effect.botGenerate e.seed_message],
          Except.error o)
    | Except.ok r =>
        (SessionStatus.ACTIVE, hist,
          [Effect.botGenerate e.seed_message, Effect.sendText r], Except.ok ())
  else
    (SessionStatus.ACTIVE, hist, [], Except.ok ())

/-- `ChannelBase._handle_pre_conversation_requirements`
(`apps/chat/channels.py` lines 241-272): the consent/survey gating state
machine. The inbound message is first appended to history as a HUMAN entry;
then the transition on the current status fires. `_ask_user_for_consent` and
`_ask_user_to_take_survey` append their bot message to history as an AI entry
and send it. -/
def handle_pre_conversation_requirements (e : Experiment) (bot : BotOracle)
    (status : SessionStatus) (hist : List (ChatMessageType × String))
    (query : String) :
    SessionStatus × List (ChatMessageType × String) × List Effect ×
      Except ChainOutput Unit :=
  let hist := hist ++ [(ChatMessageType.HUMAN, query)]
  match status with
  | SessionStatus.SETUP =>
      (SessionStatus.PENDING, hist ++ [(ChatMessageType.AI, consentMessage e)],
        [Effect.sendText (consentMessage e)], Except.ok ())
  | SessionStatus.PENDING =>
      if user_gave_consent query then
        match e.pre_survey with
        | none => start_conversation e bot hist
        | some _ =>
            (SessionStatus.PENDING_PRE_SURVEY,
              hist ++ [(ChatMessageType.AI, surveyMessage e)],
              [Effect.sendText (surveyMessage e)], Except.ok ())
      else
        (SessionStatus.PENDING, hist ++ [(ChatMessageType.AI, consentMessage e)],
          [Effect.sendText (consentMessage e)], Except.ok ())
  | SessionStatus.PENDING_PRE_SURVEY =>
      if user_gave_consent query then
        start_conversation e bot hist
      else
        (SessionStatus.PENDING_PRE_SURVEY,
          hist ++ [(ChatMessageType.AI, surveyMessage e)],
          [Effect.sendText (surveyMessage e)], Except.ok ())
  | SessionStatus.ACTIVE =>
      (SessionStatus.ACTIVE, hist, [], Except.ok ())

/-- `ChannelBase._should_handle_pre_conversation_requirements`
(`apps/chat/channels.py` lines 300-309). -/
def should_handle_pre_conversation_requirements (status : SessionStatus) : Bool :=
  status = SessionStatus.SETUP ∨ status = SessionStatus.PENDING ∨
    status = SessionStatus.PENDING_PRE_SURVEY

/-- An inbound message once the channel adapter has classified it:
whether its content type is in the channel's supported set, the extracted
user query text, and the raw content-type string used for the SYSTEM log
entry of unsupported messages (`message.content_type_unparsed`). -/
structure Msg where
  supported : Bool
  text : String
  content_type_unparsed : String
deriving DecidableEq, Repr

/-- `UNSUPPORTED_MESSAGE_BOT_PROMPT.format(supported_types=...)`
(`apps/chat/channels.py` lines 34-37 and 463-472). -/
def unsupportedBotPrompt (supportedTypes : String) : String :=
  ("\nTell the user (in the language being spoken) that they sent an unsupported message.\nYou only support {supported_types} messages types. Respond only with the message for the user\n").replace
    "{supported_types}" supportedTypes

/-- `ChannelBase._new_user_message` (`apps/chat/channels.py` lines 217-239)
composed with the helpers it calls. The per-participant session store is
threaded through (most recent session first, as `_ensure_sessions_exists`
reads it); `bot` is the `TopicBot.process_input` oracle; `supportedTypes`
stands for the channel's `supported_message_types` rendering; `now` is the
wall-clock used for `ended_at`. Returns the updated store, the effects, and
either the Python return value (`None` on the gating/reset paths) or a
`GenerationCancelled` exception. -/
def new_user_message_inner (e : Experiment) (platform : ChannelPlatform)
    (supportedTypes : String) (bot : BotOracle) (store : List SessionRec)
    (m : Msg) (now : Nat) :
    List SessionRec × List Effect × Except ChainOutput (Option String) :=
  let r := ensure_sessions_exists store (m.text == RESET_COMMAND) now
  let cur := r.1
  let rest := r.2.1
  let effs := r.2.2
  if ¬ m.supported then
    -- `_handle_unsupported_message`: log a SYSTEM entry, generate an
    -- explanation via the pipeline, send it; Python returns the result of
    -- `send_text_to_user`, i.e. None.
    let cur := { cur with history := cur.history ++
      [(ChatMessageType.SYSTEM,
        "The user sent an unsupported message type: " ++ m.content_type_unparsed)] }
    match bot (unsupportedBotPrompt supportedTypes) with
    | Except.error o =>
        (cur :: rest, effs ++ [Effect.botGenerate (unsupportedBotPrompt supportedTypes)],
          Except.error o)
    | Except.ok reply =>
        (cur :: rest,
          effs ++ [Effect.botGenerate (unsupportedBotPrompt supportedTypes),
            Effect.sendText reply],
          Except.ok none)
  else if platform ≠ ChannelPlatform.WEB ∧ m.text == RESET_COMMAND then
    -- statuses of web chats are updated through an "external" flow
    (cur :: rest, effs, Except.ok none)
  else if platform ≠ ChannelPlatform.WEB ∧ e.conversational_consent_enabled ∧
      should_handle_pre_conversation_requirements cur.status then
    let g := handle_pre_conversation_requirements e bot cur.status cur.history m.text
    ({ cur with status := g.1, history := g.2.1 } :: rest,
      effs ++ g.2.2.1,
      g.2.2.2.map (fun _ => none))
  else
    -- when consent gating is off the status is forced to ACTIVE before the
    -- message is forwarded (non-web only)
    let cur := if platform ≠ ChannelPlatform.WEB ∧ ¬ e.conversational_consent_enabled
      then { cur with status := SessionStatus.ACTIVE } else cur
    let effs := effs ++ [Effect.enqueueTrigger TriggerType.NEW_HUMAN_MESSAGE]
    match bot m.text with
    | Except.error o =>
        (cur :: rest, effs ++ [Effect.botForwardQuery m.text], Except.error o)
    | Except.ok reply =>
        (cur :: rest, effs ++ [Effect.botForwardQuery m.text, Effect.sendText reply],
          Except.ok (some reply))

/-- `ChannelBase.new_user_message` (`apps/chat/channels.py` lines 208-215):
delegate to `_new_user_message` and turn a `GenerationCancelled` exception
into the empty-string reply. -/
def new_user_message (e : Experiment) (platform : ChannelPlatform)
    (supportedTypes : String) (bot : BotOracle) (store : List SessionRec)
    (m : Msg) (now : Nat) :
    List SessionRec × List Effect × Option String :=
  match new_user_message_inner e platform supportedTypes bot store m now with
  | (s, effs, Except.error _) => (s, effs, some "")
  | (s, effs, Except.ok r) => (s, effs, r)

/-! ### The LLM runnable pipeline (`apps/service_providers/llm_service/runnables.py`) -/

/-- The three runnable variants built by `create_experiment_runnable`. -/
inductive RunnableVariant
  | assistantMode
  | agentMode
  | simpleMode
deriving DecidableEq, Repr

/-- `create_experiment_runnable` (`runnables.py` lines 47-57). The two
`assert` statements are modelled as errors carrying the assertion message. -/
def create_experiment_runnable (e : Experiment) : Except String RunnableVariant :=
  if e.assistant then Except.ok RunnableVariant.assistantMode
  else if ¬ e.llm then Except.error "Experiment must have an LLM model"
  else if ¬ e.llm_provider then Except.error "Experiment must have an LLM provider"
  else if e.tools_enabled then Except.ok RunnableVariant.agentMode
  else Except.ok RunnableVariant.simpleMode

/-- Mutable cancellation bookkeeping of `ExperimentRunnable`
(`runnables.py` lines 130-131): the in-memory `cancelled` flag and
`last_cancel_check`, a `time.time()` value in seconds. -/
structure CancelState where
  cancelled : Bool
  last_cancel_check : Option Nat
deriving DecidableEq, Repr

/-- Result of one `_chat_is_cancelled` call: the returned boolean, the updated
state, and whether the durable flag was re-read from storage
(`refresh_from_db`). -/
structure CancelCheck where
  result : Bool
  state : CancelState
  readStorage : Bool
deriving DecidableEq, Repr

/-- `ExperimentRunnable._chat_is_cancelled` (`runnables.py` lines 178-194).
`now` is `time.time()` in SECONDS; `check_every_ms` (default 1000) is added to
the stored seconds value unconverted, exactly as the source does.
`storedCancelled` is the durable `chat.metadata["cancelled"]` flag at the
moment of the (potential) read. The Python truthiness test
`if self.last_cancel_check and self.check_every_ms` is preserved: a stored
check time of `0` is falsy. -/
def chat_is_cancelled (check_every_ms : Nat) (st : CancelState) (now : Nat)
    (storedCancelled : Bool) : CancelCheck :=
  if st.cancelled then ⟨true, st, false⟩
  else if (match st.last_cancel_check with
      | some t => t != 0 && check_every_ms != 0 && decide (t + check_every_ms > now)
      | none => false) then
    ⟨false, st, false⟩
  else
    let st := { st with last_cancel_check := some now }
    if storedCancelled then ⟨true, { st with cancelled := true }, true⟩
    else ⟨false, st, true⟩

/-- `ExperimentRunnable._get_output_check_cancellation`
(`runnables.py` lines 165-173). The provider stream is a list of
(arrival second, token) pairs; `flag` gives the durable cancellation flag as
a function of time. Each token is appended to the output, then
`_chat_is_cancelled` runs; a positive check returns the partial output. -/
def get_output_check_cancellation (check_every_ms : Nat) (flag : Nat → Bool) :
    CancelState → List (Nat × String) → String × CancelState
  | st, [] => ("", st)
  | st, (t, tok) :: rest =>
      let c := chat_is_cancelled check_every_ms st t (flag t)
      if c.result then (tok, c.state)
      else
        let r := get_output_check_cancellation check_every_ms flag c.state rest
        (tok ++ r.1, r.2)

/-- History-persistence effects of a runnable invocation
(`_save_message_to_history`). -/
inductive REffect
  | saveHistory (t : ChatMessageType) (content : String)
deriving DecidableEq, Repr

/-- `ExperimentRunnable.invoke` (`runnables.py` lines 141-163). The prompt
and completion token counts come from the provider callback and are passed in
as `pt`/`ct`. When the stream loop ends with `cancelled` set, the accumulated
partial output is wrapped in a `ChainOutput` and raised as
`GenerationCancelled`; otherwise the AI turn is persisted (when enabled) and
the `ChainOutput` returned. -/
def runnable_invoke (save_input save_output : Bool) (input : String)
    (check_every_ms : Nat) (flag : Nat → Bool) (st : CancelState)
    (tokens : List (Nat × String)) (pt ct : Nat) :
    List REffect × Except ChainOutput ChainOutput :=
  let effs := if save_input then [REffect.saveHistory ChatMessageType.HUMAN input] else []
  let r := get_output_check_cancellation check_every_ms flag st tokens
  let result : ChainOutput := ⟨r.1, pt, ct⟩
  if r.2.cancelled then (effs, Except.error result)
  else if save_output then
    (effs ++ [REffect.saveHistory ChatMessageType.AI r.1], Except.ok result)
  else (effs, Except.ok result)

/-! ### Assistant-mode retry handling (`runnables.py` lines 284-363) -/

/-- `\w` of the Python pattern (word character; the provider ids in these
messages are ASCII). -/
def isWordChar (c : Char) : Bool := c.isAlphanum || c = '_'

/-- Try to match `(thread_[\w]+) while a run (run_[\w]+) is active` at the
head of `cs`, returning the two capture groups. Both `[\w]+` runs are maximal
(the literal that follows each starts with a space, so the regex engine never
needs to backtrack inside them). -/
def tryBusyAt (cs : List Char) : Option (String × String) :=
  if "thread_".toList.isPrefixOf cs then
    let r1 := cs.drop 7
    let tid := r1.takeWhile isWordChar
    if tid.isEmpty then none
    else
      let r2 := r1.drop tid.length
      if " while a run run_".toList.isPrefixOf r2 then
        let r3 := r2.drop 17
        let rid := r3.takeWhile isWordChar
        if rid.isEmpty then none
        else
          let r4 := r3.drop rid.length
          if " is active".toList.isPrefixOf r4 then
            some (⟨'t' :: 'h' :: 'r' :: 'e' :: 'a' :: 'd' :: '_' :: tid⟩,
              ⟨'r' :: 'u' :: 'n' :: '_' :: rid⟩)
          else none
      else none
  else none

/-- Scan for the pattern, preferring the latest viable start position (the
leading greedy `.*` of the Python pattern backtracks from the right). `.`
does not cross a newline, so start positions beyond the first newline are
unreachable. -/
def busyScan (cs : List Char) : Option (String × String) :=
  match cs with
  | [] => none
  | c :: rest =>
      let here := tryBusyAt cs
      if c = '\n' then here
      else
        match busyScan rest with
        | some r => some r
        | none => here

/-- `re.match(r".*(thread_[\w]+) while a run (run_[\w]+) is active.*", message)`
as used by `AssistantExperimentRunnable._handle_api_error`
(`runnables.py` line 345), returning the two capture groups on a match. -/
def matchThreadBusy (message : String) : Option (String × String) :=
  busyScan message.data

/-- Substring containment (`re.search` of a literal alternative). -/
def containsSub (pat : List Char) : List Char → Bool
  | [] => pat.isEmpty
  | c :: rest => pat.isPrefixOf (c :: rest) || containsSub pat rest

/-- `re.search(r"cancelling|cancelled", text)` as used in
`_get_response_with_retries` (`runnables.py` line 334). -/
def searchCancelled (text : String) : Bool :=
  containsSub "cancelling".toList text.data || containsSub "cancelled".toList text.data

/-- One attempt of `assistant_runnable.invoke` as seen by
`_get_response_with_retries`: a normal `OpenAIAssistantFinish` (output text
and the thread id the run used), an `openai.BadRequestError` with its body
message, or a `ValueError` with its text. -/
inductive AttemptResult
  | ok (output : String) (thread_id : String)
  | badRequest (message : String)
  | valueError (message : String)
deriving DecidableEq, Repr

/-- How `_get_response_with_retries` terminates. -/
inductive RetryOutcome
  | success (output : String) (thread_id : String)
  /-- `GenerationCancelled` raised with `ChainOutput(output="", 0, 0)` -/
  | generationCancelled (out : ChainOutput)
  /-- the original `BadRequestError` re-raised (pattern did not match) -/
  | raisedApiError (message : String)
  /-- `GenerationError` for a thread-id mismatch -/
  | threadMismatch (error_thread_id : String)
  /-- `GenerationError("Failed to get response after 3 retries")` -/
  | permanentFailure
deriving DecidableEq, Repr

/-- Result of the retry loop: its outcome, how many provider attempts were
consumed, and which stuck runs were cancelled (`_cancel_run` calls, as
(thread id, run id) pairs). -/
structure RetryResult where
  outcome : RetryOutcome
  attemptsUsed : Nat
  cancelledRuns : List (String × String)
deriving DecidableEq, Repr

/-- The body of `for i in range(3)` in `_get_response_with_retries`
(`runnables.py` lines 325-338) together with `_handle_api_error`
(lines 340-353). `fuel` is the number of loop iterations left; `attempt i`
is the provider's response to the i-th invocation. A `BadRequestError`
matching the thread-busy pattern for the current thread cancels the stuck run
and retries; a thread-id mismatch or a non-matching `BadRequestError` raises
at once; a `ValueError` raises `GenerationCancelled` when its text mentions
cancellation and is otherwise swallowed, falling through to the next
iteration. -/
def retryGo (thread_id : Option String) (attempt : Nat → AttemptResult) :
    Nat → Nat → RetryResult
  | _, 0 => ⟨RetryOutcome.permanentFailure, 0, []⟩
  | i, fuel + 1 =>
      match attempt i with
      | AttemptResult.ok out tid => ⟨RetryOutcome.success out tid, 1, []⟩
      | AttemptResult.badRequest msg =>
          match matchThreadBusy msg with
          | none => ⟨RetryOutcome.raisedApiError msg, 1, []⟩
          | some (etid, rid) =>
              if some etid = thread_id then
                let r := retryGo thread_id attempt (i + 1) fuel
                ⟨r.outcome, r.attemptsUsed + 1, (etid, rid) :: r.cancelledRuns⟩
              else ⟨RetryOutcome.threadMismatch etid, 1, []⟩
      | AttemptResult.valueError msg =>
          if searchCancelled msg then
            ⟨RetryOutcome.generationCancelled ⟨"", 0, 0⟩, 1, []⟩
          else
            let r := retryGo thread_id attempt (i + 1) fuel
            ⟨r.outcome, r.attemptsUsed + 1, r.cancelledRuns⟩

/-- `AssistantExperimentRunnable._get_response_with_retries`
(`runnables.py` lines 325-338): three loop iterations. -/
def get_response_with_retries (thread_id : Option String)
    (attempt : Nat → AttemptResult) : RetryResult :=
  retryGo thread_id attempt 0 3

/-- An attempt outcome that makes the retry loop continue to the next
iteration: a thread-busy `BadRequestError` for the current thread (after
cancelling the stuck run), or a `ValueError` not mentioning cancellation. -/
def retryableAttempt (thread_id : Option String) : AttemptResult → Bool
  | AttemptResult.ok _ _ => false
  | AttemptResult.badRequest msg =>
      match matchThreadBusy msg with
      | some (etid, _) => some etid == thread_id
      | none => false
  | AttemptResult.valueError msg => !searchCancelled msg

/-- Effects of `AssistantExperimentRunnable.invoke` beyond history writes:
persisting the provider thread id into chat metadata. -/
inductive AEffect
  | saveHistory (t : ChatMessageType) (content : String)
  | setThreadId (thread_id : String)
deriving DecidableEq, Repr

/-- `AssistantExperimentRunnable.invoke` (`runnables.py` lines 294-323).
On success the thread id is persisted when the chat had none, the AI turn is
saved, and the `ChainOutput` is built with `prompt_tokens=0,
completion_tokens=0`. Failures of the retry loop propagate as the
corresponding exception. -/
def assistant_invoke (save_input : Bool) (input : String)
    (thread_id : Option String) (attempt : Nat → AttemptResult) :
    List AEffect × Except RetryOutcome ChainOutput :=
  let effs := if save_input then [AEffect.saveHistory ChatMessageType.HUMAN input] else []
  let r := get_response_with_retries thread_id attempt
  match r.outcome with
  | RetryOutcome.success out tid =>
      let effs := if thread_id = none then effs ++ [AEffect.setThreadId tid] else effs
      (effs ++ [AEffect.saveHistory ChatMessageType.AI out],
        Except.ok ⟨out, 0, 0⟩)
  | o => (effs, Except.error o)

/-! ### Prompt-template substitution and participant data
(`runnables.py` lines 105-125, 196-216, 240-253) -/

/-- The session facts `BaseExperimentRunnable` reads: the channel platform,
whether the participant has a linked platform user, and the stored
participant data (`session.get_participant_data`, `None` when absent). -/
structure PipelineSession where
  platform : ChannelPlatform
  participant_has_user : Bool
  participant_data_raw : Option String
deriving DecidableEq, Repr

/-- `BaseExperimentRunnable.is_unauthorized_participant`
(`runnables.py` lines 110-119): web-channel sessions whose participant has no
linked user. -/
def is_unauthorized_participant (s : PipelineSession) : Bool :=
  decide (s.platform = ChannelPlatform.WEB) && !s.participant_has_user

/-- `BaseExperimentRunnable.participant_data` (`runnables.py` lines 121-125):
empty string for unauthorized participants, else the stored data with `or ""`
turning an absent value into the empty string. -/
def participant_data (s : PipelineSession) : String :=
  if is_unauthorized_participant s then "" else s.participant_data_raw.getD ""

/-- `ExperimentRunnable.source_material` (`runnables.py` lines 196-198). -/
def source_material (e : Experiment) : String :=
  e.source_material.getD ""

/-- Single-pass f-string substitution of the two template variables the chain
provides (`{source_material}` and `{participant_data}`): each occurrence is
replaced by the corresponding value, and replacement text is never rescanned,
exactly as `str.format` behaves inside `ChatPromptTemplate`. -/
def substChars (sm pd : List Char) (cs : List Char) : List Char :=
  match cs with
  | [] => []
  | c :: rest =>
      if "{source_material}".toList.isPrefixOf (c :: rest) then
        sm ++ substChars sm pd ((c :: rest).drop 17)
      else if "{participant_data}".toList.isPrefixOf (c :: rest) then
        pd ++ substChars sm pd ((c :: rest).drop 18)
      else c :: substChars sm pd rest
termination_by cs.length
decreasing_by
  all_goals simp_all [List.length_drop]
  all_goals omega

/-- A parsed template element: a literal character or one of the two
placeholder holes. -/
inductive TPart
  | lit (c : Char)
  | srcHole
  | pdHole
deriving DecidableEq, Repr

/-- Parse a template into literal characters and placeholder holes, scanning
left to right as the formatter does. -/
def parseParts (cs : List Char) : List TPart :=
  match cs with
  | [] => []
  | c :: rest =>
      if "{source_material}".toList.isPrefixOf (c :: rest) then
        TPart.srcHole :: parseParts ((c :: rest).drop 17)
      else if "{participant_data}".toList.isPrefixOf (c :: rest) then
        TPart.pdHole :: parseParts ((c :: rest).drop 18)
      else TPart.lit c :: parseParts rest
termination_by cs.length
decreasing_by
  all_goals simp_all [List.length_drop]
  all_goals omega

/-- Render one parsed template element: literals stay, each hole yields its
value exactly once. -/
def renderPart (sm pd : List Char) : TPart → List Char
  | TPart.lit c => [c]
  | TPart.srcHole => sm
  | TPart.pdHole => pd

/-- Render a parsed template: the concatenation of its elements, each hole
contributing its value exactly once. -/
def renderParts (sm pd : List Char) (ps : List TPart) : List Char :=
  (ps.map (renderPart sm pd)).flatten

/-- The system prompt built by `ExperimentRunnable.prompt` and formatted
through `SimpleExperimentRunnable._build_chain`: the experiment's prompt text
plus the (already interpolated) datetime line, with `{source_material}` and
`{participant_data}` substituted from the chain's assignments. -/
def build_system_prompt (e : Experiment) (s : PipelineSession)
    (datetimeLine : String) : String :=
  ⟨substChars (source_material e).data (participant_data s).data
    (e.prompt_text ++ datetimeLine).data⟩

/-- A concrete experiment configuration used to instantiate theorems. -/
def sampleExperiment : Experiment :=
  { conversational_consent_enabled := true
    consent_text := "Please consent."
    confirmation_text := "Reply 1 to continue."
    pre_survey := some "Survey: {survey_link}; reply 1 when done."
    pre_survey_link := "survey-link"
    seed_message := "seed"
    assistant := false
    llm := true
    llm_provider := true
    tools_enabled := false
    source_material := none
    prompt_text := "You are a helpful assistant" }

/-- A concrete bot oracle that always answers. -/
def sampleBot : BotOracle := fun s => Except.ok ("reply to " ++ s)

/-! ### Helper lemmas -/

theorem dropWhile_append_all {p : Char → Bool} {a : List Char} (b : List Char)
    (h : ∀ c ∈ a, p c = true) : (a ++ b).dropWhile p = b.dropWhile p := by
  induction a with
  | nil => rfl
  | cons c a ih =>
      have hc : p c = true := h c (List.mem_cons_self c a)
      simp only [List.cons_append, List.dropWhile_cons, hc, if_true]
      exact ih (fun x hx => h x (List.mem_cons_of_mem c hx))

theorem stripList_sandwich {a b : List Char}
    (ha : ∀ c ∈ a, c.isWhitespace = true) (hb : ∀ c ∈ b, c.isWhitespace = true) :
    stripList (a ++ '1' :: b) = ['1'] := by
  unfold stripList
  rw [dropWhile_append_all _ ha]
  have h1 : Char.isWhitespace '1' = false := by decide
  simp only [List.dropWhile_cons, h1, if_false, Bool.false_eq_true]
  rw [List.reverse_cons]
  rw [dropWhile_append_all _ (fun c hc => hb c (List.mem_reverse.mp hc))]
  simp [List.dropWhile_cons, h1]

theorem stripList_decomp (l : List Char) :
    ∃ a b, l = a ++ stripList l ++ b ∧ (∀ c ∈ a, c.isWhitespace = true) ∧
      (∀ c ∈ b, c.isWhitespace = true) := by
  refine ⟨l.takeWhile Char.isWhitespace,
    ((l.dropWhile Char.isWhitespace).reverse.takeWhile Char.isWhitespace).reverse,
    ?_, ?_, ?_⟩
  · have h3 : l.dropWhile Char.isWhitespace =
        stripList l ++
          ((l.dropWhile Char.isWhitespace).reverse.takeWhile Char.isWhitespace).reverse := by
      unfold stripList
      conv_lhs => rw [← List.reverse_reverse (l.dropWhile Char.isWhitespace)]
      conv_lhs =>
        rw [← List.takeWhile_append_dropWhile (p := Char.isWhitespace)
          (l := (l.dropWhile Char.isWhitespace).reverse)]
      rw [List.reverse_append]
    conv_lhs => rw [← List.takeWhile_append_dropWhile (p := Char.isWhitespace) (l := l), h3]
    rw [List.append_assoc]
  · exact fun c hc => List.mem_takeWhile_imp hc
  · exact fun c hc => List.mem_takeWhile_imp (List.mem_reverse.mp hc)

/-! ### Claims -/

/-- C10: the consent check strips leading and trailing whitespace from the
user's query and compares the result with the token "1": a reply is accepted
exactly when it is "1" surrounded only by whitespace (e.g. " 1 "), and no
other normalization is applied — a different digit, a full-width "1", case
changes, or embedded text are all rejected. -/
theorem user_gave_consent_strip_characterization :
    (∀ q : String, user_gave_consent q = true ↔
      ∃ a b : List Char, q.data = a ++ '1' :: b ∧
        (∀ c ∈ a, c.isWhitespace = true) ∧ (∀ c ∈ b, c.isWhitespace = true)) ∧
    user_gave_consent " 1 " = true ∧ user_gave_consent "1" = true ∧
    user_gave_consent "\t1\n" = true ∧ user_gave_consent "01" = false ∧
    user_gave_consent "１" = false ∧ user_gave_consent "yes 1" = false ∧
    user_gave_consent "1." = false := by
  refine ⟨?_, by decide, by decide, by decide, by decide, by decide, by decide, by decide⟩
  intro q
  constructor
  · intro h
    have hs : pyStrip q = "1" := by
      simpa [user_gave_consent, USER_CONSENT_TEXT] using h
    have hdata : stripList q.data = ['1'] := by
      have h2 := congrArg String.data hs
      simpa [pyStrip] using h2
    obtain ⟨a, b, hab, ha, hb⟩ := stripList_decomp q.data
    refine ⟨a, b, ?_, ha, hb⟩
    rw [hab, hdata]
    simp
  · rintro ⟨a, b, hq, ha, hb⟩
    have hs : pyStrip q = "1" := by
      unfold pyStrip
      rw [hq, stripList_sandwich ha hb]
    simp [user_gave_consent, USER_CONSENT_TEXT, hs]

/-- Witness for C10 at the concrete input " 1 ". -/
theorem user_gave_consent_strip_characterization_witness :
    user_gave_consent " 1 " = true :=
  (user_gave_consent_strip_characterization.1 " 1 ").mpr
    ⟨[' '], [' '], by decide, by decide, by decide⟩

/-- C1: the consent-gating state machine follows the spec's transition table.
In SETUP any message moves the session to PENDING and sends the consent
request; in PENDING a consenting reply moves to PENDING_PRE_SURVEY and sends
the survey link when a pre-survey is configured, and to ACTIVE (sending the
seed message's bot response, if a seed is configured) when none is, while a
non-consenting reply re-sends the consent request and stays PENDING; in
PENDING_PRE_SURVEY a consenting reply moves to ACTIVE (seed as above) and a
non-consenting reply re-sends the survey link and leaves the status
unchanged. -/
theorem gating_transition_table (e : Experiment) (bot : BotOracle)
    (hist : List (ChatMessageType × String)) (q : String) :
    (handle_pre_conversation_requirements e bot SessionStatus.SETUP hist q =
      (SessionStatus.PENDING,
        hist ++ [(ChatMessageType.HUMAN, q), (ChatMessageType.AI, consentMessage e)],
        [Effect.sendText (consentMessage e)], Except.ok ())) ∧
    (∀ conf, user_gave_consent q = true → e.pre_survey = some conf →
      handle_pre_conversation_requirements e bot SessionStatus.PENDING hist q =
        (SessionStatus.PENDING_PRE_SURVEY,
          hist ++ [(ChatMessageType.HUMAN, q), (ChatMessageType.AI, surveyMessage e)],
          [Effect.sendText (surveyMessage e)], Except.ok ())) ∧
    (user_gave_consent q = true → e.pre_survey = none →
      handle_pre_conversation_requirements e bot SessionStatus.PENDING hist q =
        start_conversation e bot (hist ++ [(ChatMessageType.HUMAN, q)])) ∧
    (user_gave_consent q = false →
      handle_pre_conversation_requirements e bot SessionStatus.PENDING hist q =
        (SessionStatus.PENDING,
          hist ++ [(ChatMessageType.HUMAN, q), (ChatMessageType.AI, consentMessage e)],
          [Effect.sendText (consentMessage e)], Except.ok ())) ∧
    (user_gave_consent q = true →
      handle_pre_conversation_requirements e bot SessionStatus.PENDING_PRE_SURVEY hist q =
        start_conversation e bot (hist ++ [(ChatMessageType.HUMAN, q)])) ∧
    (user_gave_consent q = false →
      handle_pre_conversation_requirements e bot SessionStatus.PENDING_PRE_SURVEY hist q =
        (SessionStatus.PENDING_PRE_SURVEY,
          hist ++ [(ChatMessageType.HUMAN, q), (ChatMessageType.AI, surveyMessage e)],
          [Effect.sendText (surveyMessage e)], Except.ok ())) ∧
    ((start_conversation e bot hist).1 = SessionStatus.ACTIVE) ∧
    (e.seed_message = "" →
      start_conversation e bot hist = (SessionStatus.ACTIVE, hist, [], Except.ok ())) ∧
    (∀ r, e.seed_message ≠ "" → bot e.seed_message = Except.ok r →
      start_conversation e bot hist = (SessionStatus.ACTIVE, hist,
        [Effect.botGenerate e.seed_message, Effect.sendText r], Except.ok ())) := by
  refine ⟨?_, ?_, ?_, ?_, ?_, ?_, ?_, ?_, ?_⟩
  · simp [handle_pre_conversation_requirements]
  · intro conf hc hp
    simp [handle_pre_conversation_requirements, hc, hp]
  · intro hc hp
    simp [handle_pre_conversation_requirements, hc, hp]
  · intro hc
    simp [handle_pre_conversation_requirements, hc]
  · intro hc
    simp [handle_pre_conversation_requirements, hc]
  · intro hc
    simp [handle_pre_conversation_requirements, hc]
  · by_cases hseed : e.seed_message = ""
    · simp [start_conversation, hseed]
    · cases hb : bot e.seed_message <;> simp [start_conversation, hseed, hb]
  · intro hseed
    simp [start_conversation, hseed]
  · intro r hseed hb
    simp [start_conversation, hseed, hb]

/-- Witness for C1: a consenting "1" in PENDING with a configured pre-survey
moves to PENDING_PRE_SURVEY and sends the survey link. -/
theorem gating_transition_table_witness :
    handle_pre_conversation_requirements sampleExperiment sampleBot
      SessionStatus.PENDING [] "1" =
      (SessionStatus.PENDING_PRE_SURVEY,
        [(ChatMessageType.HUMAN, "1"), (ChatMessageType.AI, surveyMessage sampleExperiment)],
        [Effect.sendText (surveyMessage sampleExperiment)], Except.ok ()) := by
  have h := (gating_transition_table sampleExperiment sampleBot [] "1").2.1
    "Survey: {survey_link}; reply 1 when done." (by decide) rfl
  simpa using h

/-- C2 (failing input): `check_every_ms = 1000` is added directly to
`last_cancel_check`, a `time.time()` value in seconds, so the durable
cancellation flag is only re-read 1000 seconds — not 1000 milliseconds —
after the previous check. With the last check at second 100 and the flag set
from second 101 on: at second 102 (2000 ms after the last check) the check
neither re-reads storage nor reports cancellation, its result is independent
of the stored flag, and a token stream arriving at seconds 100, 102, 104 is
consumed to the end with the run never marked cancelled; only at second 1101
is the flag finally re-read and observed. -/
theorem cancellation_check_uses_seconds_not_ms :
    chat_is_cancelled 1000 ⟨false, some 100⟩ 102 true =
      ⟨false, ⟨false, some 100⟩, false⟩ ∧
    chat_is_cancelled 1000 ⟨false, some 100⟩ 102 false =
      ⟨false, ⟨false, some 100⟩, false⟩ ∧
    get_output_check_cancellation 1000 (fun t => decide (t ≥ 101)) ⟨false, none⟩
      [(100, "a"), (102, "b"), (104, "c")] = ("abc", ⟨false, some 100⟩) ∧
    chat_is_cancelled 1000 ⟨false, some 100⟩ 1101 true =
      ⟨true, ⟨true, some 1101⟩, true⟩ := by
  refine ⟨by decide, by decide, ?_, by decide⟩
  decide

theorem retryGo_attempts_le (tid : Option String) (attempt : Nat → AttemptResult) :
    ∀ fuel i, (retryGo tid attempt i fuel).attemptsUsed ≤ fuel := by
  intro fuel
  induction fuel with
  | zero => intro i; simp [retryGo]
  | succ f ih =>
      intro i
      have hnext := ih (i + 1)
      simp only [retryGo]
      cases ha : attempt i with
      | ok out t => simp
      | badRequest msg =>
          cases hm : matchThreadBusy msg with
          | none => simp [hm]
          | some p =>
              obtain ⟨etid, rid⟩ := p
              by_cases he : some etid = tid
              · simp only [hm]
                rw [if_pos he]
                dsimp only
                omega
              · simp [hm, he]
      | valueError msg =>
          by_cases hc : searchCancelled msg
          · simp [hc]
          · simp only [hc, Bool.false_eq_true, if_false]
            omega

theorem retryGo_exhaust (tid : Option String) (attempt : Nat → AttemptResult) :
    ∀ fuel i, (∀ j, j < fuel → retryableAttempt tid (attempt (i + j)) = true) →
      (retryGo tid attempt i fuel).outcome = RetryOutcome.permanentFailure ∧
      (retryGo tid attempt i fuel).attemptsUsed = fuel := by
  intro fuel
  induction fuel with
  | zero => intro i _; simp [retryGo]
  | succ f ih =>
      intro i h
      have h0 : retryableAttempt tid (attempt i) = true := by
        simpa using h 0 (Nat.succ_pos f)
      have hrest : ∀ j, j < f → retryableAttempt tid (attempt (i + 1 + j)) = true := by
        intro j hj
        have heq : i + 1 + j = i + (j + 1) := by omega
        rw [heq]
        exact h (j + 1) (by omega)
      obtain ⟨ho, hu⟩ := ih (i + 1) hrest
      cases ha : attempt i with
      | ok out t => rw [ha] at h0; simp [retryableAttempt] at h0
      | badRequest msg =>
          rw [ha] at h0
          cases hm : matchThreadBusy msg with
          | none => simp [retryableAttempt, hm] at h0
          | some p =>
              obtain ⟨etid, rid⟩ := p
              have he : some etid = tid := by
                simpa [retryableAttempt, hm] using h0
              simp only [retryGo, ha, hm]
              rw [if_pos he]
              dsimp only
              exact ⟨ho, by omega⟩
      | valueError msg =>
          rw [ha] at h0
          have hc : searchCancelled msg = false := by
            simpa [retryableAttempt] using h0
          simp only [retryGo, ha, hc, Bool.false_eq_true, if_false]
          exact ⟨ho, by omega⟩

/-- C3 (counterexample to the claim as stated): a `ValueError` whose text does
not mention cancellation is a provider error that does not match the
thread-busy pattern, yet the loop does not abort immediately: it is silently
swallowed and the invocation is retried. With the first attempt failing with
`ValueError("The run failed")` and the second succeeding, the call returns
success after two attempts instead of raising a non-retryable failure. -/
theorem assistant_retry_value_error_not_immediate_abort :
    get_response_with_retries (some "thread_a")
      (fun i => if i = 0 then AttemptResult.valueError "The run failed"
        else AttemptResult.ok "hi" "thread_a") =
      ⟨RetryOutcome.success "hi" "thread_a", 2, []⟩ := by
  decide

/-- C3 (amended): hosted-assistant invocations make at most 3 attempts; a
thread-busy provider error whose extracted thread id equals the current
thread's id triggers exactly one cancel-stuck-run-and-retry cycle per
occurrence; a thread-id mismatch raises immediately without retry; a
`BadRequestError` not matching the pattern is re-raised immediately as
non-retryable; a provider error indicating the run was cancelled by another
actor surfaces as a cancellation outcome with zero token counts; a
`ValueError` not indicating cancellation is silently swallowed and retried
(counting toward the 3 attempts); and when all 3 attempts are consumed by
retryable errors a permanent generation failure is raised. -/
theorem assistant_retry_behavior (tid : Option String)
    (attempt : Nat → AttemptResult) :
    (get_response_with_retries tid attempt).attemptsUsed ≤ 3 ∧
    (∀ out t, attempt 0 = AttemptResult.ok out t →
      get_response_with_retries tid attempt = ⟨RetryOutcome.success out t, 1, []⟩) ∧
    (∀ msg etid rid, attempt 0 = AttemptResult.badRequest msg →
      matchThreadBusy msg = some (etid, rid) → some etid = tid →
      get_response_with_retries tid attempt =
        ⟨(retryGo tid attempt 1 2).outcome, (retryGo tid attempt 1 2).attemptsUsed + 1,
          (etid, rid) :: (retryGo tid attempt 1 2).cancelledRuns⟩) ∧
    (∀ msg etid rid, attempt 0 = AttemptResult.badRequest msg →
      matchThreadBusy msg = some (etid, rid) → some etid ≠ tid →
      get_response_with_retries tid attempt =
        ⟨RetryOutcome.threadMismatch etid, 1, []⟩) ∧
    (∀ msg, attempt 0 = AttemptResult.badRequest msg → matchThreadBusy msg = none →
      get_response_with_retries tid attempt = ⟨RetryOutcome.raisedApiError msg, 1, []⟩) ∧
    (∀ msg, attempt 0 = AttemptResult.valueError msg → searchCancelled msg = true →
      get_response_with_retries tid attempt =
        ⟨RetryOutcome.generationCancelled ⟨"", 0, 0⟩, 1, []⟩) ∧
    (∀ msg, attempt 0 = AttemptResult.valueError msg → searchCancelled msg = false →
      (get_response_with_retries tid attempt).outcome =
        (retryGo tid attempt 1 2).outcome) ∧
    ((∀ j, j < 3 → retryableAttempt tid (attempt j) = true) →
      (get_response_with_retries tid attempt).outcome = RetryOutcome.permanentFailure ∧
      (get_response_with_retries tid attempt).attemptsUsed = 3) := by
  refine ⟨retryGo_attempts_le tid attempt 3 0, ?_, ?_, ?_, ?_, ?_, ?_, ?_⟩
  · intro out t h
    simp [get_response_with_retries, retryGo, h]
  · intro msg etid rid h hm he
    simp [get_response_with_retries, retryGo, h, hm, he]
  · intro msg etid rid h hm he
    simp [get_response_with_retries, retryGo, h, hm, he]
  · intro msg h hm
    simp [get_response_with_retries, retryGo, h, hm]
  · intro msg h hc
    simp [get_response_with_retries, retryGo, h, hc]
  · intro msg h hc
    simp [get_response_with_retries, retryGo, h, hc]
  · intro h
    exact retryGo_exhaust tid attempt 3 0 (by simpa using h)

/-- Witness for C3's amended theorem: a first-attempt success returns after
exactly one attempt with no cancelled runs. -/
theorem assistant_retry_behavior_witness :
    get_response_with_retries none (fun _ => AttemptResult.ok "hi" "thread_t") =
      ⟨RetryOutcome.success "hi" "thread_t", 1, []⟩ :=
  (assistant_retry_behavior none (fun _ => AttemptResult.ok "hi" "thread_t")).2.1
    "hi" "thread_t" rfl

/-- C4: when the pipeline raises `GenerationCancelled` mid-generation,
`new_user_message` catches it and returns the empty string — independently of
whatever partial output the exception carries — while the state changes and
effects committed before the raise (the session resolved and forced ACTIVE,
the new-human-message trigger enqueued, the pipeline invoked with the query)
remain. -/
theorem cancellation_swallowed_at_top (e : Experiment) (platform : ChannelPlatform)
    (st : String) (bot : BotOracle) (cur : SessionRec) (rest : List SessionRec)
    (m : Msg) (now : Nat) (out : ChainOutput) :
    platform ≠ ChannelPlatform.WEB → e.conversational_consent_enabled = false →
    m.supported = true → m.text ≠ RESET_COMMAND →
    bot m.text = Except.error out →
    new_user_message e platform st bot (cur :: rest) m now =
      ({ cur with status := SessionStatus.ACTIVE } :: rest,
        [Effect.enqueueTrigger TriggerType.NEW_HUMAN_MESSAGE,
          Effect.botForwardQuery m.text],
        some "") := by
  intro hweb hconsent hsup hreset hbot
  have hr : (m.text == RESET_COMMAND) = false := by
    simpa using hreset
  simp [new_user_message, new_user_message_inner, ensure_sessions_exists, hr,
    hweb, hconsent, hsup, hbot]

/-- Witness for C4: a concrete cancelled generation yields the empty reply. -/
theorem cancellation_swallowed_at_top_witness :
    new_user_message { sampleExperiment with conversational_consent_enabled := false }
      ChannelPlatform.TELEGRAM "[text]" (fun _ => Except.error ⟨"partial output", 3, 4⟩)
      [⟨SessionStatus.ACTIVE, none, []⟩] ⟨true, "hello", "text"⟩ 5 =
      ([⟨SessionStatus.ACTIVE, none, []⟩],
        [Effect.enqueueTrigger TriggerType.NEW_HUMAN_MESSAGE,
          Effect.botForwardQuery "hello"],
        some "") :=
  cancellation_swallowed_at_top
    { sampleExperiment with conversational_consent_enabled := false }
    ChannelPlatform.TELEGRAM "[text]" (fun _ => Except.error ⟨"partial output", 3, 4⟩)
    ⟨SessionStatus.ACTIVE, none, []⟩ [] ⟨true, "hello", "text"⟩ 5
    ⟨"partial output", 3, 4⟩ (by decide) rfl rfl (by decide) rfl

theorem countP_isNone_zero_of_all {l : List SessionRec}
    (h : l.all (fun s => s.ended_at.isSome) = true) :
    l.countP (fun s => s.ended_at.isNone) = 0 := by
  rw [List.countP_eq_zero]
  intro s hs
  have hsome := List.all_eq_true.mp h s hs
  simp only [Option.isNone]
  cases he : s.ended_at with
  | none => rw [he] at hsome; simp at hsome
  | some t => simp

/-- C5: on a reset command, when the current session has no prior
conversation the store is returned unchanged (no additional session); when
the user already engaged, the current session is ended (`ended_at` becomes
non-null) and exactly one new session with null `ended_at` is created for the
same participant; and the operation preserves the invariant that at most one
session in the store is non-ended (given the reachable-state fact that every
session except the current one is already ended). -/
theorem session_reset_semantics (cur : SessionRec) (rest : List SessionRec) (now : Nat) :
    (user_already_engaged cur = false →
      ensure_sessions_exists (cur :: rest) true now = (cur, rest, [])) ∧
    (user_already_engaged cur = true →
      ensure_sessions_exists (cur :: rest) true now =
        (newSessionRec, { cur with ended_at := some now } :: rest,
          [Effect.enqueueTrigger TriggerType.CONVERSATION_START]) ∧
      newSessionRec.ended_at = none ∧
      ({ cur with ended_at := some now }).ended_at ≠ none) ∧
    (∀ isReset cur2 rest2 effs2,
      rest.all (fun s => s.ended_at.isSome) = true →
      ensure_sessions_exists (cur :: rest) isReset now = (cur2, rest2, effs2) →
      rest2.all (fun s => s.ended_at.isSome) = true ∧
      (cur2 :: rest2).countP (fun s => s.ended_at.isNone) ≤ 1) := by
  refine ⟨?_, ?_, ?_⟩
  · intro h
    simp [ensure_sessions_exists, h]
  · intro h
    refine ⟨by simp [ensure_sessions_exists, h], rfl, by simp⟩
  · intro isReset cur2 rest2 effs2 hall heq
    simp only [ensure_sessions_exists] at heq
    by_cases hres : (isReset && user_already_engaged cur) = true
    · rw [if_pos hres] at heq
      simp only [Prod.mk.injEq] at heq
      obtain ⟨h1, h2, h3⟩ := heq
      subst h1 h2 h3
      have hall2 : ({ cur with ended_at := some now } :: rest).all
          (fun s => s.ended_at.isSome) = true := by
        simp [hall]
      refine ⟨hall2, ?_⟩
      have hz := countP_isNone_zero_of_all hall2
      simp [List.countP_cons, hz, newSessionRec]
    · rw [if_neg hres] at heq
      simp only [Prod.mk.injEq] at heq
      obtain ⟨h1, h2, h3⟩ := heq
      subst h1 h2 h3
      refine ⟨hall, ?_⟩
      have hz := countP_isNone_zero_of_all hall
      simp only [List.countP_cons, hz, Nat.zero_add]
      split <;> simp

/-- Witness for C5: a reset with one engaged session ends it at time 7 and
creates one fresh session. -/
theorem session_reset_semantics_witness :
    ensure_sessions_exists
      [⟨SessionStatus.ACTIVE, none, [(ChatMessageType.HUMAN, "hi")]⟩] true 7 =
      (newSessionRec,
        [⟨SessionStatus.ACTIVE, some 7, [(ChatMessageType.HUMAN, "hi")]⟩],
        [Effect.enqueueTrigger TriggerType.CONVERSATION_START]) :=
  ((session_reset_semantics
      ⟨SessionStatus.ACTIVE, none, [(ChatMessageType.HUMAN, "hi")]⟩ [] 7).2.1
    (by decide)).1

/-- C6: the runnable factory selects the pipeline variant in priority order:
hosted-assistant mode whenever the experiment references an assistant (the
tools flag is not even consulted), otherwise agent mode when tools are
enabled, otherwise plain completion. -/
theorem runnable_factory_priority (e : Experiment) :
    (e.assistant = true →
      create_experiment_runnable e = Except.ok RunnableVariant.assistantMode) ∧
    (e.assistant = false → e.llm = true → e.llm_provider = true →
      e.tools_enabled = true →
      create_experiment_runnable e = Except.ok RunnableVariant.agentMode) ∧
    (e.assistant = false → e.llm = true → e.llm_provider = true →
      e.tools_enabled = false →
      create_experiment_runnable e = Except.ok RunnableVariant.simpleMode) := by
  refine ⟨?_, ?_, ?_⟩ <;> intros <;> simp [create_experiment_runnable, *]

/-- Witness for C6: an experiment referencing an assistant with tools also
enabled still selects assistant mode. -/
theorem runnable_factory_priority_witness :
    create_experiment_runnable
      { sampleExperiment with assistant := true, tools_enabled := true } =
      Except.ok RunnableVariant.assistantMode :=
  (runnable_factory_priority
    { sampleExperiment with assistant := true, tools_enabled := true }).1 rfl

/-- C9: every successful invocation of the hosted-assistant runnable returns
a `ChainOutput` whose prompt-token and completion-token counts are both zero,
regardless of the provider's actual usage. -/
theorem assistant_invoke_zero_token_counts (b : Bool) (input : String)
    (tid : Option String) (attempt : Nat → AttemptResult) (effs : List AEffect)
    (r : ChainOutput)
    (h : assistant_invoke b input tid attempt = (effs, Except.ok r)) :
    r.prompt_tokens = 0 ∧ r.completion_tokens = 0 := by
  simp only [assistant_invoke] at h
  cases ho : (get_response_with_retries tid attempt).outcome with
  | success out t =>
      rw [ho] at h
      simp only [Prod.mk.injEq, Except.ok.injEq] at h
      obtain ⟨-, h2⟩ := h
      rw [← h2]
      exact ⟨rfl, rfl⟩
  | generationCancelled o => rw [ho] at h; simp at h
  | raisedApiError msg0 => rw [ho] at h; simp at h
  | threadMismatch etid => rw [ho] at h; simp at h
  | permanentFailure => rw [ho] at h; simp at h

/-- Witness for C9 at a concrete successful invocation. -/
theorem assistant_invoke_zero_token_counts_witness :
    (⟨"out", 0, 0⟩ : ChainOutput).prompt_tokens = 0 ∧
    (⟨"out", 0, 0⟩ : ChainOutput).completion_tokens = 0 :=
  assistant_invoke_zero_token_counts true "hi" none
    (fun _ => AttemptResult.ok "out" "thread_t")
    [AEffect.saveHistory ChatMessageType.HUMAN "hi", AEffect.setThreadId "thread_t",
      AEffect.saveHistory ChatMessageType.AI "out"] ⟨"out", 0, 0⟩ rfl

theorem start_conversation_hist (e : Experiment) (bot : BotOracle)
    (h : List (ChatMessageType × String)) :
    (start_conversation e bot h).2.1 = h := by
  by_cases hs : e.seed_message = ""
  · simp [start_conversation, hs]
  · cases hb : bot e.seed_message <;> simp [start_conversation, hs, hb]

theorem start_conversation_no_forward (e : Experiment) (bot : BotOracle)
    (h : List (ChatMessageType × String)) :
    (start_conversation e bot h).2.2.1.all
      (fun x => !effectIsForwardOrTrigger x) = true := by
  by_cases hs : e.seed_message = ""
  · simp [start_conversation, hs]
  · cases hb : bot e.seed_message <;>
      simp [start_conversation, hs, hb, effectIsForwardOrTrigger]

theorem handle_pre_history (e : Experiment) (bot : BotOracle) (st : SessionStatus)
    (hist : List (ChatMessageType × String)) (q : String) :
    ∃ extra, (handle_pre_conversation_requirements e bot st hist q).2.1 =
      hist ++ (ChatMessageType.HUMAN, q) :: extra := by
  cases st with
  | SETUP =>
      exact ⟨[(ChatMessageType.AI, consentMessage e)],
        by simp [handle_pre_conversation_requirements]⟩
  | PENDING =>
      by_cases hc : user_gave_consent q
      · cases hp : e.pre_survey with
        | none =>
            refine ⟨[], ?_⟩
            simp [handle_pre_conversation_requirements, hc, hp, start_conversation_hist]
        | some conf =>
            refine ⟨[(ChatMessageType.AI, surveyMessage e)], ?_⟩
            simp [handle_pre_conversation_requirements, hc, hp]
      · refine ⟨[(ChatMessageType.AI, consentMessage e)], ?_⟩
        simp [handle_pre_conversation_requirements, hc]
  | PENDING_PRE_SURVEY =>
      by_cases hc : user_gave_consent q
      · refine ⟨[], ?_⟩
        simp [handle_pre_conversation_requirements, hc, start_conversation_hist]
      · refine ⟨[(ChatMessageType.AI, surveyMessage e)], ?_⟩
        simp [handle_pre_conversation_requirements, hc]
  | ACTIVE =>
      exact ⟨[], by simp [handle_pre_conversation_requirements]⟩

theorem handle_pre_no_forward (e : Experiment) (bot : BotOracle) (st : SessionStatus)
    (hist : List (ChatMessageType × String)) (q : String) :
    (handle_pre_conversation_requirements e bot st hist q).2.2.1.all
      (fun x => !effectIsForwardOrTrigger x) = true := by
  cases st with
  | SETUP => simp [handle_pre_conversation_requirements, effectIsForwardOrTrigger]
  | PENDING =>
      by_cases hc : user_gave_consent q
      · cases hp : e.pre_survey with
        | none =>
            simpa [handle_pre_conversation_requirements, hc, hp] using
              start_conversation_no_forward e bot (hist ++ [(ChatMessageType.HUMAN, q)])
        | some conf =>
            simp [handle_pre_conversation_requirements, hc, hp, effectIsForwardOrTrigger]
      · simp [handle_pre_conversation_requirements, hc, effectIsForwardOrTrigger]
  | PENDING_PRE_SURVEY =>
      by_cases hc : user_gave_consent q
      · simpa [handle_pre_conversation_requirements, hc] using
          start_conversation_no_forward e bot (hist ++ [(ChatMessageType.HUMAN, q)])
      · simp [handle_pre_conversation_requirements, hc, effectIsForwardOrTrigger]
  | ACTIVE => simp [handle_pre_conversation_requirements]

theorem new_user_message_store_effects (e : Experiment) (platform : ChannelPlatform)
    (st : String) (bot : BotOracle) (store : List SessionRec) (m : Msg) (now : Nat) :
    (new_user_message e platform st bot store m now).1 =
      (new_user_message_inner e platform st bot store m now).1 ∧
    (new_user_message e platform st bot store m now).2.1 =
      (new_user_message_inner e platform st bot store m now).2.1 := by
  unfold new_user_message
  rcases hx : new_user_message_inner e platform st bot store m now with ⟨s, effs, exc⟩
  cases exc <;> simp

theorem new_user_message_inner_gating (e : Experiment) (platform : ChannelPlatform)
    (st : String) (bot : BotOracle) (cur : SessionRec) (rest : List SessionRec)
    (m : Msg) (now : Nat)
    (hweb : platform ≠ ChannelPlatform.WEB)
    (hconsent : e.conversational_consent_enabled = true)
    (hstatus : should_handle_pre_conversation_requirements cur.status = true)
    (hsup : m.supported = true) (hreset : m.text ≠ RESET_COMMAND) :
    new_user_message_inner e platform st bot (cur :: rest) m now =
      ({ cur with
          status := (handle_pre_conversation_requirements e bot cur.status cur.history m.text).1,
          history := (handle_pre_conversation_requirements e bot cur.status cur.history m.text).2.1 }
        :: rest,
        (handle_pre_conversation_requirements e bot cur.status cur.history m.text).2.2.1,
        ((handle_pre_conversation_requirements e bot cur.status cur.history m.text).2.2.2).map
          (fun _ => none)) := by
  have hr : (m.text == RESET_COMMAND) = false := by simpa using hreset
  simp [new_user_message_inner, ensure_sessions_exists, hr, hweb, hconsent, hsup, hstatus]

/-- C7 (amended): when consent gating is active (non-web channel, consent
enabled, status SETUP, PENDING or PENDING_PRE_SURVEY), handling a supported
inbound message other than the reset command appends that message to the chat
history as a HUMAN entry, changes nothing in the store beyond the current
session's gating status and history entries (the other sessions and the
current session's `ended_at` are untouched), and produces no effect that
forwards the user's query to the LLM pipeline nor a new-human-message
trigger. -/
theorem gating_short_circuit (e : Experiment) (platform : ChannelPlatform)
    (st : String) (bot : BotOracle) (cur : SessionRec) (rest : List SessionRec)
    (m : Msg) (now : Nat)
    (hweb : platform ≠ ChannelPlatform.WEB)
    (hconsent : e.conversational_consent_enabled = true)
    (hstatus : should_handle_pre_conversation_requirements cur.status = true)
    (hsup : m.supported = true) (hreset : m.text ≠ RESET_COMMAND) :
    ∃ cur2 extra,
      (new_user_message e platform st bot (cur :: rest) m now).1 = cur2 :: rest ∧
      cur2.history = cur.history ++ (ChatMessageType.HUMAN, m.text) :: extra ∧
      cur2.ended_at = cur.ended_at ∧
      (new_user_message e platform st bot (cur :: rest) m now).2.1.all
        (fun x => !effectIsForwardOrTrigger x) = true := by
  obtain ⟨hst, heff⟩ := new_user_message_store_effects e platform st bot (cur :: rest) m now
  rw [new_user_message_inner_gating e platform st bot cur rest m now
    hweb hconsent hstatus hsup hreset] at hst heff
  obtain ⟨extra, hex⟩ := handle_pre_history e bot cur.status cur.history m.text
  refine ⟨{ cur with
      status := (handle_pre_conversation_requirements e bot cur.status cur.history m.text).1,
      history := (handle_pre_conversation_requirements e bot cur.status cur.history m.text).2.1 },
    extra, ?_, ?_, ?_, ?_⟩
  · simpa using hst
  · simpa using hex
  · rfl
  · rw [heff]
    exact handle_pre_no_forward e bot cur.status cur.history m.text

/-- Witness for C7's amended theorem: a non-consenting "hello" while PENDING
is appended as a HUMAN entry and is not forwarded to the pipeline. -/
theorem gating_short_circuit_witness :
    ∃ cur2 extra,
      (new_user_message sampleExperiment ChannelPlatform.TELEGRAM "[text]" sampleBot
        [⟨SessionStatus.PENDING, none, [(ChatMessageType.AI, "consent?")]⟩]
        ⟨true, "hello", "text"⟩ 5).1 = cur2 :: [] ∧
      cur2.history = [(ChatMessageType.AI, "consent?")] ++
        (ChatMessageType.HUMAN, "hello") :: extra ∧
      cur2.ended_at = (⟨SessionStatus.PENDING, none,
        [(ChatMessageType.AI, "consent?")]⟩ : SessionRec).ended_at ∧
      (new_user_message sampleExperiment ChannelPlatform.TELEGRAM "[text]" sampleBot
        [⟨SessionStatus.PENDING, none, [(ChatMessageType.AI, "consent?")]⟩]
        ⟨true, "hello", "text"⟩ 5).2.1.all
        (fun x => !effectIsForwardOrTrigger x) = true :=
  gating_short_circuit sampleExperiment ChannelPlatform.TELEGRAM "[text]" sampleBot
    ⟨SessionStatus.PENDING, none, [(ChatMessageType.AI, "consent?")]⟩ []
    ⟨true, "hello", "text"⟩ 5 (by decide) rfl rfl rfl (by decide)

/-- C7 (counterexample to the claim as stated): a reset-command message
arriving on a non-web channel with consent gating active in status PENDING is
handled without being appended to any chat history as a HUMAN entry — the
engaged session is ended, a fresh session is created, and the handler returns
before the gating state machine (and its history write) runs. -/
theorem gating_reset_message_not_in_history :
    new_user_message sampleExperiment ChannelPlatform.TELEGRAM "[text]" sampleBot
      [⟨SessionStatus.PENDING, none, [(ChatMessageType.AI, "consent?")]⟩]
      ⟨true, RESET_COMMAND, "text"⟩ 5 =
      ([newSessionRec,
        ⟨SessionStatus.PENDING, some 5, [(ChatMessageType.AI, "consent?")]⟩],
        [Effect.enqueueTrigger TriggerType.CONVERSATION_START], none) ∧
    ∀ s ∈ (new_user_message sampleExperiment ChannelPlatform.TELEGRAM "[text]" sampleBot
      [⟨SessionStatus.PENDING, none, [(ChatMessageType.AI, "consent?")]⟩]
      ⟨true, RESET_COMMAND, "text"⟩ 5).1,
      (ChatMessageType.HUMAN, RESET_COMMAND) ∉ s.history := by
  refine ⟨by decide, by decide⟩

theorem substChars_eq_renderParts (sm pd : List Char) (cs : List Char) :
    substChars sm pd cs = renderParts sm pd (parseParts cs) := by
  induction cs using substChars.induct sm pd with
  | case1 => simp [substChars, parseParts, renderParts]
  | case2 c rest hpre ih =>
      rw [substChars, parseParts]
      simp only [if_pos hpre]
      simp only [List.drop_succ_cons] at ih
      simp [renderParts, renderPart, ih]
  | case3 c rest hpre hpre2 ih =>
      rw [substChars, parseParts]
      simp only [if_neg hpre, if_pos hpre2]
      simp only [List.drop_succ_cons] at ih
      simp [renderParts, renderPart, ih]
  | case4 c rest hpre hpre2 ih =>
      rw [substChars, parseParts]
      simp only [if_neg hpre, if_neg hpre2]
      simp [renderParts, renderPart, ih]

/-- C8: on an in-process pipeline invocation the system prompt is the
single-pass rendering of the parsed template — each `{source_material}` and
`{participant_data}` occurrence becomes exactly one copy of its value
(`renderParts` emits one value per parsed hole and never rescans replacement
text); a participant is unauthorized exactly when the session is on the web
channel and its participant has no linked platform user; unauthorized
participants resolve `{participant_data}` to the empty string; and missing
participant data or source material substitutes the empty string — all
functions involved are total, so no invocation raises. -/
theorem prompt_substitution (e : Experiment) (s : PipelineSession) (dt : String) :
    (build_system_prompt e s dt).data =
      renderParts (source_material e).data (participant_data s).data
        (parseParts (e.prompt_text ++ dt).data) ∧
    (is_unauthorized_participant s = true ↔
      (s.platform = ChannelPlatform.WEB ∧ s.participant_has_user = false)) ∧
    (is_unauthorized_participant s = true → participant_data s = "") ∧
    (s.participant_data_raw = none → participant_data s = "") ∧
    (e.source_material = none → source_material e = "") := by
  refine ⟨?_, ?_, ?_, ?_, ?_⟩
  · simpa [build_system_prompt] using
      substChars_eq_renderParts (source_material e).data (participant_data s).data
        (e.prompt_text ++ dt).data
  · simp [is_unauthorized_participant]
  · intro h
    simp [participant_data, h]
  · intro h
    by_cases hu : is_unauthorized_participant s <;> simp [participant_data, hu, h]
  · intro h
    simp [source_material, h]

/-- Witness for C8: a web-channel session with no linked user resolves
participant data to the empty string even when data is stored. -/
theorem prompt_substitution_witness :
    participant_data ⟨ChannelPlatform.WEB, false, some "stored data"⟩ = "" :=
  (prompt_substitution sampleExperiment
    ⟨ChannelPlatform.WEB, false, some "stored data"⟩ "").2.2.1 (by decide)

end OCS

